import Mathlib

/-!
Verification development for the VirtuFit remote-generation task relay.

The repository contains three HTTP relay handlers that forward an uploaded
image to a third-party image-to-3D provider and track the resulting
asynchronous job:

* `src/app/api/meshy-3d/route.ts`, first variant — Tripo-backed handler with
  an internal budget-bounded polling loop;
* `src/app/api/meshy-3d/route.ts`, second variant — Meshy-backed handler
  with the same loop structure;
* `src/app/api/products.ts` (POST) — Tripo-backed handler that polls at most
  once per request and hands the caller a resumable `taskId`.

This file shallowly embeds those handlers.  Provider HTTP responses are
presented by an oracle (an environment structure); the handlers are pure
functions from the environment and the parsed request body to the HTTP
response returned to the caller, paired with the list of outbound provider
calls made, in order.  JSON response bodies are embedded as ordered
association lists of field name to value, with `undefined`-valued fields
omitted exactly where `JSON.stringify` omits them.  JavaScript string
truthiness (empty string falsy, `undefined` falsy) is modelled explicitly.
A provider body that fails `JSON.parse`, or a missing `data` object whose
property access raises a `TypeError`, is modelled by flags on the oracle
response; the raised message is caught by each handler's outer `catch` and
surfaced as an `Internal server error:` 500.
-/

/-- A JSON value occurring in one of the relay's response bodies. -/
inductive BVal where
  | str (s : String)
  | null
  | num (n : Int)
deriving DecidableEq, Repr

/-- An HTTP response returned to the relay's caller: status code plus the
JSON body as an ordered list of fields. -/
structure ApiResponse where
  status : Nat
  body : List (String × BVal)
deriving DecidableEq, Repr

/-- Look up a field of a response body by name. -/
def getField (n : String) (b : List (String × BVal)) : Option BVal :=
  (b.find? (fun p => p.1 = n)).map (fun p => p.2)

/-- JavaScript truthiness of a possibly-undefined string: `undefined` and
the empty string are falsy. -/
def truthyStr : Option String → Bool
  | none => false
  | some s => s ≠ ""

/-- JavaScript `a || d` where `a` is a possibly-undefined string and `d` a
string default. -/
def jsOrStr : Option String → String → String
  | none, d => d
  | some s, d => if s = "" then d else s

/-- JavaScript `a || b` where both operands are possibly-undefined strings. -/
def jsOrOpt : Option String → Option String → Option String
  | none, b => b
  | some s, b => if s = "" then b else some s

/-- A JSON object field whose value may be `undefined`; `JSON.stringify`
omits the field in that case. -/
def optStrField (n : String) : Option String → List (String × BVal)
  | none => []
  | some s => [(n, BVal.str s)]

/-- Value of a `traceId` field fed from `headers.get(..)`: `null` when the
header is absent, the header string otherwise. -/
def traceBVal : Option String → BVal
  | none => BVal.null
  | some s => BVal.str s

/-- JavaScript `String.prototype.trim`: strip leading and trailing
whitespace (modelled over the space, tab, carriage-return and line-feed
characters). -/
def jsTrim (s : String) : String :=
  (((s.toList.dropWhile Char.isWhitespace).reverse.dropWhile Char.isWhitespace).reverse).asString

/-- Whether the character list `s` starts with the list `p`. -/
def charsStartsWith : List Char → List Char → Bool
  | _, [] => true
  | [], _ :: _ => false
  | c :: s, p :: ps => c = p && charsStartsWith s ps

/-- JavaScript `s.startsWith(p)`. -/
def strStartsWith (s p : String) : Bool :=
  charsStartsWith s.toList p.toList

/-- Split a character list on every occurrence of `sep`, JS
`String.prototype.split` with a one-character separator. -/
def splitCharAux (sep : Char) : List Char → List Char → List (List Char)
  | [], acc => [acc.reverse]
  | c :: rest, acc =>
      if c = sep then acc.reverse :: splitCharAux sep rest []
      else splitCharAux sep rest (c :: acc)

/-- JavaScript `s.split(sep)` for a one-character separator. -/
def splitChar (s : String) (sep : Char) : List String :=
  (splitCharAux sep s.toList []).map List.asString

/-- The API-key guard `!apiKey || typeof apiKey !== 'string' ||
apiKey.trim() === ''` shared by all three handlers (environment variables
are strings or absent, so the `typeof` disjunct is vacuous). -/
def missingKey : Option String → Bool
  | none => true
  | some s => jsTrim s = ""

/-- Value of one base64 alphabet character, `none` for characters outside
the alphabet (Node's decoder skips those). -/
def b64Val (c : Char) : Option Nat :=
  if 'A' ≤ c ∧ c ≤ 'Z' then some (c.toNat - 65)
  else if 'a' ≤ c ∧ c ≤ 'z' then some (c.toNat - 97 + 26)
  else if '0' ≤ c ∧ c ≤ '9' then some (c.toNat - 48 + 52)
  else if c = '+' then some 62
  else if c = '/' then some 63
  else none

/-- Regroup base64 sextets into bytes; a trailing group of fewer than four
sextets contributes `floor(6k/8)` bytes, as in Node's lenient decoder. -/
def b64Bytes : List Nat → List Nat
  | a :: b :: c :: d :: rest =>
      (a * 4 + b / 16) :: ((b % 16) * 16 + c / 4) :: ((c % 4) * 64 + d) :: b64Bytes rest
  | [a, b, c] => [a * 4 + b / 16, (b % 16) * 16 + c / 4]
  | [a, b] => [a * 4 + b / 16]
  | [_] => []
  | [] => []

/-- `Buffer.from(s, 'base64')` as a list of byte values. -/
def base64Decode (s : String) : List Nat :=
  b64Bytes (s.toList.filterMap b64Val)

/-- Characters of the first capture of `/:(.*?);/` continuing from just
after a `:`: the characters up to the first `;`, if any. -/
def takeUntilSemi : List Char → Option (List Char)
  | [] => none
  | c :: rest => if c = ';' then some [] else (takeUntilSemi rest).map (fun t => c :: t)

/-- First capture group of `s.match(/:(.*?);/)`: the text between the first
`:` that is followed by a later `;` and that `;`.  (The lazy `.*?` makes the
match anchor at the first such `:`.) -/
def mimeMatchAux : List Char → Option (List Char)
  | [] => none
  | c :: rest => if c = ':' then takeUntilSemi rest else mimeMatchAux rest

/-- String form of `mimeMatchAux`. -/
def mimeMatch (s : String) : Option String :=
  (mimeMatchAux s.toList).map List.asString

/-- Message of the `TypeError` raised by `Buffer.from(undefined, 'base64')`
when the data URL has no comma (text is engine specific; approximated). -/
def bufferTypeErrMsg : String :=
  "The first argument must be of type string or an instance of Buffer"

/-- Message of the `TypeError` raised by reading a property of an absent
`data` object (text is engine specific; approximated). -/
def undefReadMsg (f : String) : String :=
  "Cannot read properties of undefined (reading " ++ f ++ ")"

/-- The `dataURLtoBuffer` helper of `products.ts` / `meshy-3d/route.ts`:
split on `,`, extract the MIME type with `/:(.*?);/`, base64-decode the
remainder.  A failed MIME match throws `Invalid data URL`; a missing comma
makes `arr[1]` undefined and `Buffer.from` throw. -/
def dataURLtoBuffer (dataurl : String) : Except String (List Nat × String) :=
  let arr := splitChar dataurl ','
  match mimeMatch (arr.headD "") with
  | none => Except.error "Invalid data URL"
  | some mime =>
      match (arr.drop 1).head? with
      | none => Except.error bufferTypeErrMsg
      | some payload => Except.ok (base64Decode payload, mime)

/-- `mime.split('/')[1]`, which is `undefined` when the MIME string has no
slash. -/
def extOf (mime : String) : Option String :=
  ((splitChar mime '/').drop 1).head?

/-- Parsed fields of a Tripo `data` object, each `undefined` when absent.
The STS fields are those destructured from `stsJson.data` in `products.ts`. -/
structure TripoData where
  status : Option String := none
  outputModel : Option String := none
  taskId : Option String := none
  imageToken : Option String := none
  s3Host : Option String := none
  resourceBucket : Option String := none
  resourceUri : Option String := none
  sessionToken : Option String := none
  stsAk : Option String := none
  stsSk : Option String := none
deriving DecidableEq, Repr

/-- One Tripo HTTP response as seen by a handler: whether the body parses as
JSON (with the raised message when not), the parsed `code`, `message`,
`suggestion` and `data` fields, and the `X-Tripo-Trace-ID` header. -/
structure TripoResp where
  jsonParses : Bool := true
  parseErrorMsg : String := ""
  code : Option Int := some 0
  message : Option String := none
  suggestion : Option String := none
  data : Option TripoData := none
  traceId : Option String := none
deriving DecidableEq, Repr

/-- One Meshy HTTP response as seen by a handler: `res.ok`, the numeric
status and status text, whether the body parses as JSON (with the raised
message when not), `JSON.stringify` of the parsed body, the raw body text,
and the parsed fields each call site reads. -/
structure MeshyHttpResp where
  ok : Bool := true
  httpStatus : Nat := 200
  statusText : String := ""
  jsonParses : Bool := true
  parseErrorMsg : String := ""
  stringified : String := ""
  text : String := ""
  message : Option String := none
  result : Option String := none
  status : Option String := none
  modelUrlsGlb : Option String := none
  taskErrorMessage : Option String := none
deriving DecidableEq, Repr

/-- Body of a Tripo `POST /task` call, at the three call shapes that occur. -/
inductive CreateBody where
  | url (u : String)
  | stsObject (bucket key : Option String)
  | fileToken (tpe : Option String) (token : String)
deriving DecidableEq, Repr

/-- One outbound provider call, recorded in order in the handler's trace. -/
inductive OutCall where
  | getTask (taskId : String)
  | upload
  | stsToken (format : Option String)
  | s3Put (bucket key : Option String)
  | createTask (body : CreateBody) (modelVersion : Option String)
  | meshyCreate
  | meshyGetTask (taskId : String)
deriving DecidableEq, Repr

/-- Response for a missing or blank `TRIPO_API_KEY`. -/
def tripoKeyConfig500 : ApiResponse :=
  ⟨500, [("error", BVal.str "Server configuration error: Missing Tripo API key")]⟩

/-- Response for a missing or blank `MESHY_API_KEY`. -/
def meshyKeyConfig500 : ApiResponse :=
  ⟨500, [("error", BVal.str "Server configuration error: Missing Meshy API key")]⟩

/-- The 400 response of both `meshy-3d` handlers for an invalid image. -/
def invalid400 : ApiResponse :=
  ⟨400, [("error", BVal.str "Invalid image data provided.")]⟩

/-- The 400 response of `products.ts` for a missing `image_url`. -/
def prodMissing400 : ApiResponse :=
  ⟨400, [("error", BVal.str "Missing or invalid image_url.")]⟩

/-- The outer-catch 500 produced when the handler body throws. -/
def internal500 (m : String) : ApiResponse :=
  ⟨500, [("error", BVal.str ("Internal server error: " ++ m))]⟩

/-- Timeout response of the Tripo polling loop. -/
def tripoTimeout500 : ApiResponse :=
  ⟨500, [("error", BVal.str "Tripo task did not complete in time")]⟩

/-- Timeout response of the Meshy polling loop. -/
def meshyTimeout500 : ApiResponse :=
  ⟨500, [("error", BVal.str "Meshy task did not complete in time")]⟩

/-- Tripo success response with a model URL (identical at both Tripo success
sites). -/
def tripoSuccess200 (u : String) (trace : Option String) : ApiResponse :=
  ⟨200, [("modelUrl", BVal.str u), ("traceId", traceBVal trace)]⟩

/-- Tripo response when the provider claims success without a model URL
(identical at both Tripo success sites). -/
def tripoMissingUrl500 (trace : Option String) : ApiResponse :=
  ⟨500, [("error", BVal.str "Tripo task succeeded but no model URL found"),
         ("traceId", traceBVal trace)]⟩

/-- Tripo response for a terminal failure status `s`. -/
def tripoFailed500 (s : String) (trace : Option String) : ApiResponse :=
  ⟨500, [("error", BVal.str ("Tripo task failed: " ++ s)),
         ("traceId", traceBVal trace)]⟩

/-- Meshy success response with a GLB URL. -/
def meshySuccess200 (u : String) : ApiResponse :=
  ⟨200, [("modelUrl", BVal.str u)]⟩

/-- Meshy response when the provider claims success without a GLB URL. -/
def meshyMissingUrl500 : ApiResponse :=
  ⟨500, [("error", BVal.str "Meshy task succeeded but no GLB URL found")]⟩

/-- The Tripo terminal failure statuses recognized by both Tripo handlers:
`['failed', 'cancelled', 'unknown', 'banned', 'expired'].includes(status)`
(false on an `undefined` status). -/
def isTripoFail : Option String → Bool
  | none => false
  | some s => (["failed", "cancelled", "unknown", "banned", "expired"] : List String).contains s

/-- The static `TRIPO_ERROR_MAP` of `products.ts`, code to
(message, suggestion). -/
def tripoErrorMap (c : Int) : Option (String × String) :=
  if c = 1002 then
    some ("Authentication failed. Your API key is missing, invalid, or you have no API credits.",
          "Check your API key and ensure you have sufficient API credits (not web credits).")
  else if c = 2000 then
    some ("You have exceeded the generation rate limit.",
          "Please retry later. Consider implementing exponential backoff.")
  else if c = 2001 then
    some ("Task not found.", "Check if you passed the correct task id.")
  else if c = 2002 then
    some ("The task type is unsupported.", "Check if you passed the correct task type.")
  else if c = 2003 then
    some ("The input file is empty.",
          "Check if you passed file, or it may be rejected by the firewall.")
  else if c = 2004 then
    some ("The file type is unsupported.", "Check if the file you input is supported.")
  else if c = 2008 then
    some ("Input violates content policy.", "Modify your input and retry.")
  else if c = 2010 then
    some ("You need more credits to start a new task.",
          "Review your usage at Billing and purchase more API credits.")
  else if c = 2015 then
    some ("The version has been deprecated.", "Try a higher model version.")
  else none

/-- `TRIPO_ERROR_MAP[code]` where the code may itself be absent. -/
def tripoMapOf : Option Int → Option (String × String)
  | none => none
  | some c => tripoErrorMap c

/-- The `tripoErrorResponse` helper of `products.ts` (lines 136-145): map the
code through `TRIPO_ERROR_MAP`, falling back to the provider's raw message
and suggestion; always HTTP 500. -/
def tripoErrorResponse (j : TripoResp) (t : String) : ApiResponse :=
  ⟨500,
    [("error", BVal.str (jsOrStr (jsOrOpt ((tripoMapOf j.code).map Prod.fst) j.message)
        "Tripo API error"))]
    ++ optStrField "suggestion" (jsOrOpt ((tripoMapOf j.code).map Prod.snd) j.suggestion)
    ++ [("traceId", BVal.str t)]
    ++ (match j.code with
        | none => []
        | some c => [("code", BVal.num c)])⟩

/-- One iteration of the Tripo polling loop body (`meshy-3d/route.ts`,
first variant, lines 111-139): `some resp` when the loop returns `resp` to
the caller (or a throw reaches the outer catch), `none` when the status is
non-terminal and the loop continues. -/
def tripoPollOutcome (r : TripoResp) : Option ApiResponse :=
  if ¬ r.jsonParses then some (internal500 r.parseErrorMsg)
  else if r.code ≠ some 0 then
    some ⟨500,
      [("error", BVal.str (jsOrStr r.message "Tripo polling failed"))]
      ++ optStrField "suggestion" r.suggestion
      ++ [("traceId", traceBVal r.traceId)]⟩
  else
    match r.data with
    | none => some (internal500 (undefReadMsg "status"))
    | some d =>
        if d.status = some "success" then
          some (match d.outputModel with
                | some u => if u ≠ "" then tripoSuccess200 u r.traceId
                            else tripoMissingUrl500 r.traceId
                | none => tripoMissingUrl500 r.traceId)
        else if isTripoFail d.status then
          some (tripoFailed500 (d.status.getD "") r.traceId)
        else none

/-- Error response of the Meshy poll site when `!getTaskRes.ok`
(`meshy-3d/route.ts`, second variant, lines 252-263). -/
def meshyGetErr (r : MeshyHttpResp) : ApiResponse :=
  let details :=
    if r.jsonParses then "Meshy API GET task failed: " ++ jsOrStr r.message r.stringified
    else "Meshy API GET task failed: " ++ toString r.httpStatus ++ " " ++ r.statusText
         ++ " - " ++ (r.text.take 200)
  ⟨r.httpStatus, [("error", BVal.str ("Failed to get Meshy task status: " ++ details))]⟩

/-- Error response of the Meshy create site when `!createTaskRes.ok`
(`meshy-3d/route.ts`, second variant, lines 207-218). -/
def meshyCreateErr (r : MeshyHttpResp) : ApiResponse :=
  let details :=
    if r.jsonParses then "Meshy API failed: " ++ jsOrStr r.message r.stringified
    else "Meshy API failed: " ++ toString r.httpStatus ++ " " ++ r.statusText
         ++ " - " ++ (r.text.take 200)
  ⟨r.httpStatus, [("error", BVal.str ("Failed to create Meshy task: " ++ details))]⟩

/-- One iteration of the Meshy polling loop body (`meshy-3d/route.ts`,
second variant, lines 238-286): `some resp` when the loop returns,
`none` for `PENDING`/`IN_PROGRESS` (and any other unrecognized status). -/
def meshyPollOutcome (r : MeshyHttpResp) : Option ApiResponse :=
  if ¬ r.ok then some (meshyGetErr r)
  else if ¬ r.jsonParses then some (internal500 r.parseErrorMsg)
  else if r.status = some "SUCCEEDED" then
    some (match r.modelUrlsGlb with
          | some u => if u ≠ "" then meshySuccess200 u else meshyMissingUrl500
          | none => meshyMissingUrl500)
  else if r.status = some "FAILED" ∨ r.status = some "CANCELED" then
    some ⟨500, [("error", BVal.str ("Meshy task failed: "
                 ++ jsOrStr r.taskErrorMessage (r.status.getD "")))]⟩
  else none

/-- The `taskId` branch of the `products.ts` POST handler (lines 148-175):
a single poll of the provider, normalized to success, failure, or a
resumable 202 `processing` snapshot. -/
def productsPollBranch (r : TripoResp) (t : String) : ApiResponse :=
  if ¬ r.jsonParses then internal500 r.parseErrorMsg
  else if r.code ≠ some 0 then tripoErrorResponse r (jsOrStr r.traceId "")
  else
    match r.data with
    | none => internal500 (undefReadMsg "status")
    | some d =>
        if d.status = some "success" then
          match d.outputModel with
          | some u => if u ≠ "" then tripoSuccess200 u r.traceId
                      else tripoMissingUrl500 r.traceId
          | none => tripoMissingUrl500 r.traceId
        else if isTripoFail d.status then
          tripoFailed500 (d.status.getD "") r.traceId
        else
          ⟨202, [("status", BVal.str "processing"), ("taskId", BVal.str t),
                 ("traceId", traceBVal r.traceId)]⟩

/-- The shared shape of the two copy-pasted polling loops
(`while (Date.now() - startTime < pollingTimeout) { await sleep(3000); ... }`,
`meshy-3d/route.ts` lines 111-140 and 238-286).  `o i` is the outcome of the
`i`-th poll, `d i` the extra time the `i`-th iteration spends beyond the
3000 ms sleep (network latency), `t` the timeout response, `bl` the budget
remaining of the 120000 ms total.  Returns the caller-visible response and
the number of polls performed. -/
def pollLoopFuel (o : Nat → Option ApiResponse) (d : Nat → Nat) (t : ApiResponse) :
    Nat → Nat → Nat → ApiResponse × Nat
  | 0, _, _ => (t, 0)
  | fuel + 1, i, bl =>
    if 0 < bl then
      match o i with
      | some r => (r, 1)
      | none =>
          let res := pollLoopFuel o d t fuel (i + 1) (bl - (3000 + d i))
          (res.1, res.2 + 1)
    else (t, 0)

/-- The polling loop proper.  The loop condition is on the remaining budget
alone; the structural `fuel`, initialized to the budget, never runs out
before the budget does, because every iteration consumes at least the
3000 ms sleep (at least 1) from the budget while consuming exactly 1 fuel. -/
def pollLoop (o : Nat → Option ApiResponse) (d : Nat → Nat) (t : ApiResponse)
    (i : Nat) (bl : Nat) : ApiResponse × Nat :=
  pollLoopFuel o d t bl i bl

/-- Parsed JSON body of a request to either `meshy-3d` handler. -/
structure Meshy3dReq where
  image_url : Option String := none
deriving DecidableEq, Repr

/-- Provider oracle for the Tripo-backed `meshy-3d` handler. -/
structure TripoLoopEnv where
  uploadResp : TripoResp
  createResp : TripoResp
  pollResp : Nat → TripoResp
  pollDelay : Nat → Nat

/-- The Tripo-backed POST handler of `meshy-3d/route.ts` (first variant,
lines 8-150): key guard, data-URL validation, multipart upload, task
creation, then the budget-bounded polling loop. -/
def meshy3dTripoPOST (apiKey : Option String) (env : TripoLoopEnv)
    (req : Meshy3dReq) : ApiResponse × List OutCall :=
  if missingKey apiKey then (tripoKeyConfig500, [])
  else
    match req.image_url with
    | none => (invalid400, [])
    | some u =>
      if u = "" ∨ ¬ strStartsWith u "data:image/" then (invalid400, [])
      else
        match dataURLtoBuffer u with
        | Except.error e => (internal500 e, [])
        | Except.ok (_buf, mime) =>
          let ext := extOf mime
          let ur := env.uploadResp
          if ¬ ur.jsonParses then (internal500 ur.parseErrorMsg, [OutCall.upload])
          else if ur.code ≠ some 0 then
            (⟨500, [("error", BVal.str (jsOrStr ur.message "Tripo upload failed"))]
                   ++ optStrField "suggestion" ur.suggestion
                   ++ [("traceId", traceBVal ur.traceId)]⟩, [OutCall.upload])
          else
            match ur.data with
            | none => (internal500 (undefReadMsg "image_token"), [OutCall.upload])
            | some ud =>
              if ¬ truthyStr ud.imageToken then
                (⟨500, [("error", BVal.str "No image_token returned from Tripo upload"),
                        ("traceId", traceBVal ur.traceId)]⟩, [OutCall.upload])
              else
                let tok := ud.imageToken.getD ""
                let trace2 := [OutCall.upload, OutCall.createTask (CreateBody.fileToken ext tok) none]
                let cr := env.createResp
                if ¬ cr.jsonParses then (internal500 cr.parseErrorMsg, trace2)
                else if cr.code ≠ some 0 then
                  (⟨500, [("error", BVal.str (jsOrStr cr.message "Tripo create task failed"))]
                         ++ optStrField "suggestion" cr.suggestion
                         ++ [("traceId", traceBVal cr.traceId)]⟩, trace2)
                else
                  match cr.data with
                  | none => (internal500 (undefReadMsg "task_id"), trace2)
                  | some cd =>
                    if ¬ truthyStr cd.taskId then
                      (⟨500, [("error", BVal.str "No task_id returned from Tripo create task"),
                              ("traceId", traceBVal cr.traceId)]⟩, trace2)
                    else
                      let tid := cd.taskId.getD ""
                      let lr := pollLoop (fun i => tripoPollOutcome (env.pollResp i))
                                  env.pollDelay tripoTimeout500 0 120000
                      (lr.1, trace2 ++ List.replicate lr.2 (OutCall.getTask tid))

/-- Provider oracle for the Meshy-backed `meshy-3d` handler. -/
structure MeshyLoopEnv where
  createResp : MeshyHttpResp
  pollResp : Nat → MeshyHttpResp
  pollDelay : Nat → Nat

/-- The Meshy-backed POST handler of `meshy-3d/route.ts` (second variant,
lines 157-301): key guard, data-URL validation, inline task creation
(the data URL itself is the request body), then the polling loop. -/
def meshy3dMeshyPOST (apiKey : Option String) (env : MeshyLoopEnv)
    (req : Meshy3dReq) : ApiResponse × List OutCall :=
  if missingKey apiKey then (meshyKeyConfig500, [])
  else
    match req.image_url with
    | none => (invalid400, [])
    | some u =>
      if u = "" ∨ ¬ strStartsWith u "data:image/" then (invalid400, [])
      else
        let cr := env.createResp
        if ¬ cr.ok then (meshyCreateErr cr, [OutCall.meshyCreate])
        else if ¬ cr.jsonParses then (internal500 cr.parseErrorMsg, [OutCall.meshyCreate])
        else if ¬ truthyStr cr.result then
          (⟨500, [("error", BVal.str "Meshy API did not return a task ID")]⟩,
           [OutCall.meshyCreate])
        else
          let tid := cr.result.getD ""
          let lr := pollLoop (fun i => meshyPollOutcome (env.pollResp i))
                      env.pollDelay meshyTimeout500 0 120000
          (lr.1, OutCall.meshyCreate :: List.replicate lr.2 (OutCall.meshyGetTask tid))

/-- Parsed JSON body of a request to the `products.ts` POST handler. -/
structure ProductsReq where
  image_url : Option String := none
  taskId : Option String := none
  model_version : Option String := none
deriving DecidableEq, Repr

/-- Provider oracle for the `products.ts` POST handler.  `s3PutOk` models
whether the `PutObjectCommand` send succeeds (a rejection is caught by the
outer catch with message `s3ErrMsg`); `awsSdkAvailable` models the dynamic
`import('@aws-sdk/client-s3')`. -/
structure ProductsEnv where
  pollResp : String → TripoResp
  uploadResp : TripoResp
  stsResp : TripoResp
  createResp : CreateBody → Option String → TripoResp
  awsSdkAvailable : Bool
  s3PutOk : Bool
  s3ErrMsg : String

/-- Response when `@aws-sdk/client-s3` is not installed
(`products.ts` lines 253-256). -/
def awsSdk500 : ApiResponse :=
  ⟨500, [("error", BVal.str
            "The AWS SDK (@aws-sdk/client-s3) is required for STS uploads but is not installed."),
         ("suggestion", BVal.str
            "Add @aws-sdk/client-s3 to your dependencies to enable large file uploads.")]⟩

/-- Message of the `TypeError` raised by destructuring an absent
`stsJson.data` (text is engine specific; approximated). -/
def stsDestructureMsg : String :=
  "Cannot destructure property s3_host of stsJson.data as it is undefined."

/-- The create-task tail repeated verbatim at all three `products.ts` create
sites (lines 199-208, 290-300, 336-346): provider error through
`tripoErrorResponse`, missing `task_id` as 500, otherwise the resumable
202 `processing` snapshot. -/
def prodCreateFinish (cr : TripoResp) (trace : List OutCall) : ApiResponse × List OutCall :=
  if ¬ cr.jsonParses then (internal500 cr.parseErrorMsg, trace)
  else if cr.code ≠ some 0 then (tripoErrorResponse cr (jsOrStr cr.traceId ""), trace)
  else
    match cr.data with
    | none => (internal500 (undefReadMsg "task_id"), trace)
    | some cd =>
      if ¬ truthyStr cd.taskId then
        (⟨500, [("error", BVal.str "No task_id returned from Tripo create task"),
                ("traceId", traceBVal cr.traceId)]⟩, trace)
      else
        (⟨202, [("status", BVal.str "processing"),
                ("taskId", BVal.str (cd.taskId.getD "")),
                ("traceId", traceBVal cr.traceId)]⟩, trace)

/-- The POST handler of `products.ts` (lines 124-351): key guard, then
either a single resumable poll for a supplied `taskId`, or task creation
from a direct `http(s)` URL, an STS object-storage upload (decoded payload
over 100KB), or an inline multipart upload (100KB or less). -/
def productsPOST (apiKey : Option String) (env : ProductsEnv)
    (req : ProductsReq) : ApiResponse × List OutCall :=
  if missingKey apiKey then (tripoKeyConfig500, [])
  else if truthyStr req.taskId then
    let t := req.taskId.getD ""
    (productsPollBranch (env.pollResp t) t, [OutCall.getTask t])
  else
    match req.image_url with
    | none => (prodMissing400, [])
    | some u =>
      if u = "" then (prodMissing400, [])
      else
        let mv := if truthyStr req.model_version then req.model_version else none
        if strStartsWith u "http://" || strStartsWith u "https://" then
          prodCreateFinish (env.createResp (CreateBody.url u) mv)
            [OutCall.createTask (CreateBody.url u) mv]
        else
          match dataURLtoBuffer u with
          | Except.error e => (internal500 e, [])
          | Except.ok (buf, mime) =>
            let ext := extOf mime
            if buf.length > 100 * 1024 then
              let sr := env.stsResp
              if ¬ sr.jsonParses then (internal500 sr.parseErrorMsg, [OutCall.stsToken ext])
              else if sr.code ≠ some 0 then
                (tripoErrorResponse sr (jsOrStr sr.traceId ""), [OutCall.stsToken ext])
              else
                match sr.data with
                | none => (internal500 stsDestructureMsg, [OutCall.stsToken ext])
                | some sd =>
                  if ¬ env.awsSdkAvailable then (awsSdk500, [OutCall.stsToken ext])
                  else if ¬ env.s3PutOk then
                    (internal500 env.s3ErrMsg,
                     [OutCall.stsToken ext, OutCall.s3Put sd.resourceBucket sd.resourceUri])
                  else
                    prodCreateFinish
                      (env.createResp (CreateBody.stsObject sd.resourceBucket sd.resourceUri) mv)
                      [OutCall.stsToken ext,
                       OutCall.s3Put sd.resourceBucket sd.resourceUri,
                       OutCall.createTask (CreateBody.stsObject sd.resourceBucket sd.resourceUri) mv]
            else
              let ur := env.uploadResp
              if ¬ ur.jsonParses then (internal500 ur.parseErrorMsg, [OutCall.upload])
              else if ur.code ≠ some 0 then
                (tripoErrorResponse ur (jsOrStr ur.traceId ""), [OutCall.upload])
              else
                match ur.data with
                | none => (internal500 (undefReadMsg "image_token"), [OutCall.upload])
                | some ud =>
                  if ¬ truthyStr ud.imageToken then
                    (⟨500, [("error", BVal.str "No image_token returned from Tripo upload"),
                            ("traceId", traceBVal ur.traceId)]⟩, [OutCall.upload])
                  else
                    let tok := ud.imageToken.getD ""
                    prodCreateFinish (env.createResp (CreateBody.fileToken ext tok) mv)
                      [OutCall.upload, OutCall.createTask (CreateBody.fileToken ext tok) mv]

/-- A Tripo poll response whose status is still `queued`. -/
def pendingTripoResp : TripoResp :=
  { data := some { status := some "queued" } }

/-- A Meshy poll response whose status is still `PENDING`. -/
def pendingMeshyResp : MeshyHttpResp :=
  { status := some "PENDING" }

/-- A provider oracle for the Tripo loop handler that never terminates. -/
def samplePendingTripoLoopEnv : TripoLoopEnv :=
  { uploadResp := { data := some { imageToken := some "tok" } },
    createResp := { data := some { taskId := some "task1" } },
    pollResp := fun _ => pendingTripoResp,
    pollDelay := fun _ => 0 }

/-- A provider oracle for the Meshy loop handler that never terminates. -/
def samplePendingMeshyLoopEnv : MeshyLoopEnv :=
  { createResp := { result := some "task1" },
    pollResp := fun _ => pendingMeshyResp,
    pollDelay := fun _ => 0 }

/-- A benign provider oracle for the `products.ts` handler. -/
def sampleProductsEnv : ProductsEnv :=
  { pollResp := fun _ => pendingTripoResp,
    uploadResp := { data := some { imageToken := some "tok" } },
    stsResp := { data := some { resourceBucket := some "bkt", resourceUri := some "uri" } },
    createResp := fun _ _ => { data := some { taskId := some "task2" } },
    awsSdkAvailable := true,
    s3PutOk := true,
    s3ErrMsg := "" }

/-- When no poll ever yields a terminal outcome, the loop returns the
timeout response. -/
theorem pollLoopFuel_no_terminal (o : Nat → Option ApiResponse) (d : Nat → Nat)
    (t : ApiResponse) (h : ∀ i, o i = none) :
    ∀ fuel i bl, (pollLoopFuel o d t fuel i bl).1 = t := by
  intro fuel
  induction fuel with
  | zero => intro i bl; rfl
  | succ fuel ih =>
    intro i bl
    rw [pollLoopFuel]
    by_cases hb : 0 < bl
    · simp only [hb, if_true, reduceIte, h i]
      exact ih (i + 1) (bl - (3000 + d i))
    · simp [hb]

/-- When no poll ever yields a terminal outcome, the loop returns the
timeout response. -/
theorem pollLoop_no_terminal (o : Nat → Option ApiResponse) (d : Nat → Nat)
    (t : ApiResponse) (h : ∀ i, o i = none) :
    ∀ bl i, (pollLoop o d t i bl).1 = t := by
  intro bl i
  exact pollLoopFuel_no_terminal o d t h bl i bl

/-- The loop performs at most `ceil(bl / 3000)` polls: every iteration
consumes at least the 3000 ms sleep from the remaining budget. -/
theorem pollLoopFuel_count_le (o : Nat → Option ApiResponse) (d : Nat → Nat)
    (t : ApiResponse) :
    ∀ fuel i bl, (pollLoopFuel o d t fuel i bl).2 ≤ (bl + 2999) / 3000 := by
  intro fuel
  induction fuel with
  | zero => intro i bl; exact Nat.zero_le _
  | succ fuel ih =>
    intro i bl
    rw [pollLoopFuel]
    by_cases hb : 0 < bl
    · simp only [hb, if_true, reduceIte]
      cases hoi : o i with
      | some r => simp only []; omega
      | none =>
        simp only []
        have hrec := ih (i + 1) (bl - (3000 + d i))
        have hd : (bl - (3000 + d i) + 2999) / 3000 ≤ (bl - 3000 + 2999) / 3000 := by
          apply Nat.div_le_div_right
          omega
        omega
    · simp [hb]

/-- The loop performs at most `ceil(bl / 3000)` polls. -/
theorem pollLoop_count_le (o : Nat → Option ApiResponse) (d : Nat → Nat)
    (t : ApiResponse) : ∀ bl i, (pollLoop o d t i bl).2 ≤ (bl + 2999) / 3000 := by
  intro bl i
  exact pollLoopFuel_count_le o d t bl i bl

/-- The trace accumulated before `prodCreateFinish` is returned unchanged:
the create-task call has already been made whatever the response. -/
theorem prodCreateFinish_trace (cr : TripoResp) (tr : List OutCall) :
    (prodCreateFinish cr tr).2 = tr := by
  unfold prodCreateFinish
  split_ifs <;> try rfl
  cases cr.data with
  | none => rfl
  | some cd =>
    simp only []
    split_ifs <;> rfl

/-- Every message and suggestion in `TRIPO_ERROR_MAP` is non-empty (hence
truthy, so the mapped pair always wins the `||` fallbacks). -/
theorem tripoErrorMap_nonempty (c : Int) (p : String × String)
    (h : tripoErrorMap c = some p) : p.1 ≠ "" ∧ p.2 ≠ "" := by
  unfold tripoErrorMap at h
  split_ifs at h <;> simp only [Option.some.injEq] at h <;>
    first
      | (subst h; constructor <;> decide)
      | exact absurd h (by simp)

/-- C9: when the provider API-key environment variable is absent or blank,
each of the three relay handlers returns the HTTP 500 configuration-error
response and makes no outbound call, whatever the request body — the body
is not even consulted. -/
theorem C9_missing_key_config_error (k : Option String) (hk : missingKey k = true)
    (envT : TripoLoopEnv) (envM : MeshyLoopEnv) (envP : ProductsEnv)
    (rq : Meshy3dReq) (rqP : ProductsReq) :
    meshy3dTripoPOST k envT rq = (tripoKeyConfig500, []) ∧
    meshy3dMeshyPOST k envM rq = (meshyKeyConfig500, []) ∧
    productsPOST k envP rqP = (tripoKeyConfig500, []) ∧
    tripoKeyConfig500.status = 500 ∧ meshyKeyConfig500.status = 500 := by
  unfold meshy3dTripoPOST meshy3dMeshyPOST productsPOST
  simp [hk]
  constructor <;> rfl

/-- Witness for C9 at a concrete absent key and concrete oracles. -/
theorem C9_missing_key_config_error_witness :
    meshy3dTripoPOST none samplePendingTripoLoopEnv {} = (tripoKeyConfig500, []) ∧
    meshy3dMeshyPOST none samplePendingMeshyLoopEnv {} = (meshyKeyConfig500, []) ∧
    productsPOST none sampleProductsEnv {} = (tripoKeyConfig500, []) ∧
    tripoKeyConfig500.status = 500 ∧ meshyKeyConfig500.status = 500 :=
  C9_missing_key_config_error none rfl samplePendingTripoLoopEnv
    samplePendingMeshyLoopEnv sampleProductsEnv {} {}

/-- C5: `tripoErrorResponse` maps every coded provider error through the
static `TRIPO_ERROR_MAP`: a mapped code yields the table's message and
suggestion (code 1002 in particular yields the authentication/credit
message and its remediation suggestion), and a code outside the table falls
back to the provider's raw message (default `Tripo API error`) and raw
suggestion, always as an HTTP 500. -/
theorem C5_error_code_mapping (r : TripoResp) (t : String) (c : Int)
    (hc : r.code = some c) :
    (∀ p, tripoErrorMap c = some p →
      tripoErrorResponse r t =
        ⟨500, [("error", BVal.str p.1), ("suggestion", BVal.str p.2),
               ("traceId", BVal.str t), ("code", BVal.num c)]⟩) ∧
    (c = 1002 →
      tripoErrorResponse r t =
        ⟨500, [("error", BVal.str "Authentication failed. Your API key is missing, invalid, or you have no API credits."),
               ("suggestion", BVal.str "Check your API key and ensure you have sufficient API credits (not web credits)."),
               ("traceId", BVal.str t), ("code", BVal.num 1002)]⟩) ∧
    (tripoErrorMap c = none →
      tripoErrorResponse r t =
        ⟨500, [("error", BVal.str (jsOrStr r.message "Tripo API error"))]
              ++ optStrField "suggestion" r.suggestion
              ++ [("traceId", BVal.str t), ("code", BVal.num c)]⟩ ∧
      ∀ m, r.message = some m → m ≠ "" →
        getField "error" (tripoErrorResponse r t).body = some (BVal.str m)) := by
  refine ⟨?_, ?_, ?_⟩
  · intro p hp
    obtain ⟨hm, hs⟩ := tripoErrorMap_nonempty c p hp
    unfold tripoErrorResponse
    rw [hc]
    simp only [tripoMapOf]
    rw [hp]
    simp [jsOrOpt, jsOrStr, optStrField, hm, hs]
  · intro h1002
    subst h1002
    unfold tripoErrorResponse
    rw [hc]
    simp only [tripoMapOf]
    simp [tripoErrorMap, jsOrOpt, jsOrStr, optStrField]
  · intro hnone
    have he : tripoErrorResponse r t =
        ⟨500, [("error", BVal.str (jsOrStr r.message "Tripo API error"))]
              ++ optStrField "suggestion" r.suggestion
              ++ [("traceId", BVal.str t), ("code", BVal.num c)]⟩ := by
      unfold tripoErrorResponse
      rw [hc]
      simp only [tripoMapOf]
      rw [hnone]
      simp [jsOrOpt]
    refine ⟨he, ?_⟩
    intro m hm hm2
    rw [he]
    simp [jsOrStr, hm, hm2, getField]

/-- Witness for C5 at code 1002 with an empty raw message, and at the
unmapped code 4242 with raw message and suggestion. -/
theorem C5_error_code_mapping_witness :
    tripoErrorResponse { code := some 1002 } "tr" =
      ⟨500, [("error", BVal.str "Authentication failed. Your API key is missing, invalid, or you have no API credits."),
             ("suggestion", BVal.str "Check your API key and ensure you have sufficient API credits (not web credits)."),
             ("traceId", BVal.str "tr"), ("code", BVal.num 1002)]⟩ ∧
    getField "error" (tripoErrorResponse
        { code := some 4242, message := some "raw msg", suggestion := some "raw sugg" } "tr").body
      = some (BVal.str "raw msg") :=
  ⟨(C5_error_code_mapping { code := some 1002 } "tr" 1002 rfl).2.1 rfl,
   ((C5_error_code_mapping
      { code := some 4242, message := some "raw msg", suggestion := some "raw sugg" }
      "tr" 4242 rfl).2.2 (by decide)).2 "raw msg" rfl (by decide)⟩

/-- C1: at each of the three success sites, a provider response that claims
the terminal success status yields the success response carrying the model
URL exactly when that URL is present and non-empty, and the dedicated
missing-result HTTP 500 failure otherwise — never a success response
without a URL. -/
theorem C1_success_requires_url
    (rT : TripoResp) (dT : TripoData) (hT1 : rT.jsonParses = true)
    (hT2 : rT.code = some 0) (hT3 : rT.data = some dT) (hT4 : dT.status = some "success")
    (rM : MeshyHttpResp) (hM1 : rM.ok = true) (hM2 : rM.jsonParses = true)
    (hM3 : rM.status = some "SUCCEEDED")
    (rP : TripoResp) (dP : TripoData) (tP : String) (hP1 : rP.jsonParses = true)
    (hP2 : rP.code = some 0) (hP3 : rP.data = some dP) (hP4 : dP.status = some "success") :
    tripoPollOutcome rT =
      some (if truthyStr dT.outputModel then tripoSuccess200 (dT.outputModel.getD "") rT.traceId
            else tripoMissingUrl500 rT.traceId) ∧
    meshyPollOutcome rM =
      some (if truthyStr rM.modelUrlsGlb then meshySuccess200 (rM.modelUrlsGlb.getD "")
            else meshyMissingUrl500) ∧
    productsPollBranch rP tP =
      (if truthyStr dP.outputModel then tripoSuccess200 (dP.outputModel.getD "") rP.traceId
       else tripoMissingUrl500 rP.traceId) ∧
    (∀ u tr, (tripoSuccess200 u tr).status = 200 ∧
       getField "modelUrl" (tripoSuccess200 u tr).body = some (BVal.str u)) ∧
    (∀ u, (meshySuccess200 u).status = 200 ∧
       getField "modelUrl" (meshySuccess200 u).body = some (BVal.str u)) ∧
    (∀ tr, (tripoMissingUrl500 tr).status = 500) ∧ meshyMissingUrl500.status = 500 := by
  refine ⟨?_, ?_, ?_, ?_, ?_, ?_, rfl⟩
  · unfold tripoPollOutcome
    rw [hT2, hT3]
    simp only [hT1, hT4, Bool.not_true, if_false, ite_true, if_true, reduceIte,
      Option.some.injEq, ne_eq, not_true_eq_false]
    cases hom : dT.outputModel with
    | none => simp [truthyStr]
    | some u =>
      by_cases hu : u = "" <;> simp [truthyStr, hu]
  · unfold meshyPollOutcome
    simp only [hM1, hM2, hM3, Bool.not_true, if_false, ite_true, if_true, reduceIte,
      Option.some.injEq, not_true_eq_false]
    cases hom : rM.modelUrlsGlb with
    | none => simp [truthyStr]
    | some u =>
      by_cases hu : u = "" <;> simp [truthyStr, hu]
  · unfold productsPollBranch
    rw [hP2, hP3]
    simp only [hP1, hP4, Bool.not_true, if_false, ite_true, if_true, reduceIte,
      Option.some.injEq, not_true_eq_false]
    cases hom : dP.outputModel with
    | none => simp [truthyStr]
    | some u =>
      by_cases hu : u = "" <;> simp [truthyStr, hu]
  · intro u tr
    exact ⟨rfl, rfl⟩
  · intro u
    exact ⟨rfl, rfl⟩
  · intro tr
    rfl

/-- Witness for C1: a Tripo success with URL, a Meshy success with empty
URL, and a products-handler success without a URL. -/
theorem C1_success_requires_url_witness :
    tripoPollOutcome { data := some { status := some "success", outputModel := some "https://x/m.glb" } } =
      some (if truthyStr (some "https://x/m.glb")
            then tripoSuccess200 ((some "https://x/m.glb").getD "") none
            else tripoMissingUrl500 none) ∧
    meshyPollOutcome { status := some "SUCCEEDED", modelUrlsGlb := some "" } =
      some (if truthyStr (some "") then meshySuccess200 ((some "").getD "") else meshyMissingUrl500) ∧
    productsPollBranch { data := some { status := some "success" } } "t1" =
      (if truthyStr none then tripoSuccess200 (Option.getD none "") none else tripoMissingUrl500 none) := by
  have h := C1_success_requires_url
    { data := some { status := some "success", outputModel := some "https://x/m.glb" } }
    { status := some "success", outputModel := some "https://x/m.glb" } rfl rfl rfl rfl
    { status := some "SUCCEEDED", modelUrlsGlb := some "" } rfl rfl rfl
    { data := some { status := some "success" } } { status := some "success" } "t1" rfl rfl rfl rfl
  exact ⟨h.1, h.2.1, h.2.2.1⟩

/-- C6: when the provider never reports a terminal status, each of the two
budget-bounded polling loops still terminates with its timeout response,
performing at most `120000 / 3000 = 40` polls — each iteration consumes at
least the 3000 ms sleep from the 120000 ms budget. -/
theorem C6_loop_terminates_bounded
    (pT : Nat → TripoResp) (dT : Nat → Nat)
    (hT : ∀ i, tripoPollOutcome (pT i) = none)
    (pM : Nat → MeshyHttpResp) (dM : Nat → Nat)
    (hM : ∀ i, meshyPollOutcome (pM i) = none) :
    (pollLoop (fun i => tripoPollOutcome (pT i)) dT tripoTimeout500 0 120000).1
      = tripoTimeout500 ∧
    (pollLoop (fun i => tripoPollOutcome (pT i)) dT tripoTimeout500 0 120000).2
      ≤ 120000 / 3000 ∧
    (pollLoop (fun i => meshyPollOutcome (pM i)) dM meshyTimeout500 0 120000).1
      = meshyTimeout500 ∧
    (pollLoop (fun i => meshyPollOutcome (pM i)) dM meshyTimeout500 0 120000).2
      ≤ 120000 / 3000 := by
  refine ⟨pollLoop_no_terminal _ dT tripoTimeout500 hT 120000 0, ?_,
          pollLoop_no_terminal _ dM meshyTimeout500 hM 120000 0, ?_⟩
  · have h := pollLoop_count_le (fun i => tripoPollOutcome (pT i)) dT tripoTimeout500 120000 0
    omega
  · have h := pollLoop_count_le (fun i => meshyPollOutcome (pM i)) dM meshyTimeout500 120000 0
    omega

/-- Witness for C6 with providers that always answer `queued` / `PENDING`. -/
theorem C6_loop_terminates_bounded_witness :
    (pollLoop (fun i => tripoPollOutcome ((fun _ => pendingTripoResp) i))
        (fun _ => 0) tripoTimeout500 0 120000).1 = tripoTimeout500 ∧
    (pollLoop (fun i => tripoPollOutcome ((fun _ => pendingTripoResp) i))
        (fun _ => 0) tripoTimeout500 0 120000).2 ≤ 120000 / 3000 ∧
    (pollLoop (fun i => meshyPollOutcome ((fun _ => pendingMeshyResp) i))
        (fun _ => 0) meshyTimeout500 0 120000).1 = meshyTimeout500 ∧
    (pollLoop (fun i => meshyPollOutcome ((fun _ => pendingMeshyResp) i))
        (fun _ => 0) meshyTimeout500 0 120000).2 ≤ 120000 / 3000 :=
  C6_loop_terminates_bounded (fun _ => pendingTripoResp) (fun _ => 0) (fun _ => rfl)
    (fun _ => pendingMeshyResp) (fun _ => 0) (fun _ => rfl)

/-- Every response of the single-poll branch is a 200 success, a 202
processing snapshot, or a 500 failure. -/
theorem productsPollBranch_status (r : TripoResp) (t : String) :
    (productsPollBranch r t).status = 200 ∨ (productsPollBranch r t).status = 202 ∨
    (productsPollBranch r t).status = 500 := by
  unfold productsPollBranch
  by_cases h1 : r.jsonParses
  case neg => simp only [h1, not_false_eq_true, if_true, reduceIte]; right; right; rfl
  by_cases h2 : r.code = some 0
  case neg =>
    simp only [h1, h2, not_true_eq_false, if_false, ne_eq, not_false_eq_true, if_true, reduceIte]
    right; right; rfl
  simp only [h1, h2, not_true_eq_false, if_false, ne_eq, not_true_eq_false, reduceIte]
  cases hD : r.data with
  | none => right; right; rfl
  | some d =>
    by_cases h3 : d.status = some "success"
    · simp only [h3, if_true, reduceIte]
      cases hom : d.outputModel with
      | none => right; right; rfl
      | some u =>
        by_cases hu : u = ""
        · simp only [hu]; right; right; rfl
        · simp only [hu, ne_eq, not_false_eq_true, if_true, reduceIte]; left; rfl
    · by_cases h4 : isTripoFail d.status
      · simp only [h3, h4, if_false, if_true, reduceIte]; right; right; rfl
      · simp only [h3, h4, if_false, reduceIte, Bool.not_eq_true]
        right; left; rfl

/-- C10: a `products.ts` request carrying a non-empty `taskId` performs
exactly one provider status query, for that task, and returns the
normalized single-poll result (HTTP 200 success, 500 failure, or 202
processing); it performs no upload and creates no task, whatever
`image_url` the body also carries. -/
theorem C10_taskid_single_poll (k : Option String) (hk : missingKey k = false)
    (env : ProductsEnv) (req : ProductsReq) (t : String)
    (ht : req.taskId = some t) (ht2 : t ≠ "") :
    productsPOST k env req = (productsPollBranch (env.pollResp t) t, [OutCall.getTask t]) ∧
    ((productsPollBranch (env.pollResp t) t).status = 200 ∨
     (productsPollBranch (env.pollResp t) t).status = 202 ∨
     (productsPollBranch (env.pollResp t) t).status = 500) := by
  constructor
  · unfold productsPOST
    rw [ht]
    simp [hk, truthyStr, ht2]
  · exact productsPollBranch_status (env.pollResp t) t

/-- Witness for C10 at a concrete key, oracle and request that also carries
an `image_url`. -/
theorem C10_taskid_single_poll_witness :
    productsPOST (some "key") sampleProductsEnv
        { image_url := some "data:image/png;base64,AAAA", taskId := some "task7" }
      = (productsPollBranch (sampleProductsEnv.pollResp "task7") "task7",
         [OutCall.getTask "task7"]) ∧
    ((productsPollBranch (sampleProductsEnv.pollResp "task7") "task7").status = 200 ∨
     (productsPollBranch (sampleProductsEnv.pollResp "task7") "task7").status = 202 ∨
     (productsPollBranch (sampleProductsEnv.pollResp "task7") "task7").status = 500) :=
  C10_taskid_single_poll (some "key") rfl sampleProductsEnv
    { image_url := some "data:image/png;base64,AAAA", taskId := some "task7" }
    "task7" rfl (by decide)

/-- C8: when the `products.ts` handler starts a new task from a data URL,
the outbound call sequence is routed by the decoded payload size: over
100*1024 bytes it obtains short-lived object-storage credentials
(`POST /upload/sts/token`), uploads the bytes to that store, and only then
creates the task from the stored object; at 100*1024 bytes or fewer it
uploads inline via multipart form data to the direct upload endpoint and
creates the task from the returned token. -/
theorem C8_size_threshold_routing (k : Option String) (hk : missingKey k = false)
    (env : ProductsEnv) (req : ProductsReq)
    (hT : truthyStr req.taskId = false)
    (u : String) (hu : req.image_url = some u) (hne : u ≠ "")
    (h1 : strStartsWith u "http://" = false) (h2 : strStartsWith u "https://" = false)
    (buf : List Nat) (mime : String) (hb : dataURLtoBuffer u = Except.ok (buf, mime))
    (sd : TripoData) (hs1 : env.stsResp.jsonParses = true)
    (hs2 : env.stsResp.code = some 0) (hs3 : env.stsResp.data = some sd)
    (ha : env.awsSdkAvailable = true) (hs4 : env.s3PutOk = true)
    (ud : TripoData) (hu1 : env.uploadResp.jsonParses = true)
    (hu2 : env.uploadResp.code = some 0) (hu3 : env.uploadResp.data = some ud)
    (tok : String) (htk : ud.imageToken = some tok) (htk2 : tok ≠ "") :
    (productsPOST k env req).2 =
      (if buf.length > 100 * 1024 then
        [OutCall.stsToken (extOf mime), OutCall.s3Put sd.resourceBucket sd.resourceUri,
         OutCall.createTask (CreateBody.stsObject sd.resourceBucket sd.resourceUri)
           (if truthyStr req.model_version then req.model_version else none)]
      else
        [OutCall.upload,
         OutCall.createTask (CreateBody.fileToken (extOf mime) tok)
           (if truthyStr req.model_version then req.model_version else none)]) := by
  unfold productsPOST
  rw [hu]
  simp only [hk, hT, hne, h1, h2, Bool.false_eq_true, if_false, Bool.or_self, hb, reduceIte]
  by_cases hlen : buf.length > 100 * 1024
  · simp only [hlen, if_true, reduceIte, hs1, hs2, hs3, ha, hs4, not_true_eq_false,
      Bool.not_true, if_false, ne_eq, not_false_eq_true]
    rw [prodCreateFinish_trace]
  · simp only [hlen, if_false, reduceIte, hu1, hu2, hu3, htk, not_true_eq_false,
      Bool.not_true, if_false, ne_eq, not_false_eq_true, truthyStr, htk2, Option.getD_some,
      decide_True, decide_not, Bool.not_eq_true]
    rw [prodCreateFinish_trace]

/-- Witness for C8 at a small (3-byte) concrete payload. -/
theorem C8_size_threshold_routing_witness :
    (productsPOST (some "key") sampleProductsEnv
        { image_url := some "data:image/png;base64,AAAA" }).2 =
      (if ([(0 : Nat), 0, 0]).length > 100 * 1024 then
        [OutCall.stsToken (extOf "image/png"),
         OutCall.s3Put (some "bkt") (some "uri"),
         OutCall.createTask (CreateBody.stsObject (some "bkt") (some "uri"))
           (if truthyStr none then none else none)]
      else
        [OutCall.upload,
         OutCall.createTask (CreateBody.fileToken (extOf "image/png") "tok")
           (if truthyStr none then none else none)]) :=
  C8_size_threshold_routing (some "key") rfl sampleProductsEnv
    { image_url := some "data:image/png;base64,AAAA" } rfl
    "data:image/png;base64,AAAA" rfl (by decide) rfl rfl
    [(0 : Nat), 0, 0] "image/png" rfl
    { resourceBucket := some "bkt", resourceUri := some "uri" } rfl rfl rfl rfl rfl
    { imageToken := some "tok" } rfl rfl rfl "tok" rfl (by decide)

/-- When the key is present, the image is a valid data URL, and the upload
and create-task calls succeed, the Tripo-backed `meshy-3d` handler returns
the result of its polling loop, after the upload and create calls and one
`GET task` call per poll. -/
theorem meshy3dTripoPOST_reaches_loop (k : Option String) (hk : missingKey k = false)
    (env : TripoLoopEnv) (u : String) (hne : u ≠ "")
    (hs : strStartsWith u "data:image/" = true)
    (buf : List Nat) (mime : String) (hb : dataURLtoBuffer u = Except.ok (buf, mime))
    (ud : TripoData) (h1 : env.uploadResp.jsonParses = true)
    (h2 : env.uploadResp.code = some 0) (h3 : env.uploadResp.data = some ud)
    (tok : String) (h4 : ud.imageToken = some tok) (h5 : tok ≠ "")
    (cd : TripoData) (h6 : env.createResp.jsonParses = true)
    (h7 : env.createResp.code = some 0) (h8 : env.createResp.data = some cd)
    (tid : String) (h9 : cd.taskId = some tid) (h10 : tid ≠ "") :
    meshy3dTripoPOST k env { image_url := some u } =
      ((pollLoop (fun i => tripoPollOutcome (env.pollResp i)) env.pollDelay
          tripoTimeout500 0 120000).1,
       [OutCall.upload, OutCall.createTask (CreateBody.fileToken (extOf mime) tok) none]
         ++ List.replicate
              (pollLoop (fun i => tripoPollOutcome (env.pollResp i)) env.pollDelay
                tripoTimeout500 0 120000).2
              (OutCall.getTask tid)) := by
  unfold meshy3dTripoPOST
  dsimp only
  simp only [hk, Bool.false_eq_true, if_false, reduceIte]
  simp only [hne, hs, not_true_eq_false, or_self, or_false, false_or, if_false,
    reduceIte, ne_eq, not_false_eq_true, Bool.not_true]
  rw [hb]
  simp only [h1, h2, h3, h4, h6, h7, h8, h9, truthyStr, h5, h10, decide_True,
    decide_not, Bool.not_eq_true, not_true_eq_false, if_false, reduceIte,
    Option.getD_some, ne_eq, not_false_eq_true, Option.some.injEq, reduceCtorEq]

/-- C2 counterexample: a concrete run of the Tripo-backed `meshy-3d`
handler in which the provider answers `queued` forever.  On exhausting the
120000 ms budget the handler returns HTTP 500 with the error message
`Tripo task did not complete in time` and no `taskId` field — an error
response, not a resumable `processing` snapshot. -/
theorem C2_counterexample_timeout_is_error :
    (meshy3dTripoPOST (some "key") samplePendingTripoLoopEnv
        { image_url := some "data:image/png;base64,AAAA" }).1 = tripoTimeout500 ∧
    tripoTimeout500.status = 500 ∧
    getField "taskId" tripoTimeout500.body = none ∧
    getField "error" tripoTimeout500.body =
      some (BVal.str "Tripo task did not complete in time") := by
  refine ⟨?_, rfl, rfl, rfl⟩
  have key := meshy3dTripoPOST_reaches_loop (some "key") rfl samplePendingTripoLoopEnv
    "data:image/png;base64,AAAA" (by decide) rfl [0, 0, 0] "image/png" rfl
    { imageToken := some "tok" } rfl rfl rfl "tok" rfl (by decide)
    { taskId := some "task1" } rfl rfl rfl "task1" rfl (by decide)
  have h1 : (meshy3dTripoPOST (some "key") samplePendingTripoLoopEnv
      { image_url := some "data:image/png;base64,AAAA" }).1 =
      (pollLoop (fun i => tripoPollOutcome (samplePendingTripoLoopEnv.pollResp i))
        samplePendingTripoLoopEnv.pollDelay tripoTimeout500 0 120000).1 :=
    congrArg Prod.fst key
  exact h1.trans (pollLoop_no_terminal _ _ _ (fun i => rfl) 120000 0)

/-- C2 amended: when the provider never reaches a terminal status within
the budget, the two `meshy-3d` loop handlers return the HTTP 500 timeout
error, which carries no `taskId`; the resumable contract lives in
`products.ts`, whose single poll returns 202 `processing` carrying the
`taskId` whenever the status is non-terminal. -/
theorem C2_amended_timeout_behaviour
    (pT : Nat → TripoResp) (dT : Nat → Nat)
    (hT : ∀ i, tripoPollOutcome (pT i) = none)
    (pM : Nat → MeshyHttpResp) (dM : Nat → Nat)
    (hM : ∀ i, meshyPollOutcome (pM i) = none)
    (r : TripoResp) (d : TripoData) (t : String)
    (h1 : r.jsonParses = true) (h2 : r.code = some 0) (h3 : r.data = some d)
    (h4 : d.status ≠ some "success") (h5 : isTripoFail d.status = false) :
    (pollLoop (fun i => tripoPollOutcome (pT i)) dT tripoTimeout500 0 120000).1
      = tripoTimeout500 ∧
    tripoTimeout500.status = 500 ∧ getField "taskId" tripoTimeout500.body = none ∧
    (pollLoop (fun i => meshyPollOutcome (pM i)) dM meshyTimeout500 0 120000).1
      = meshyTimeout500 ∧
    meshyTimeout500.status = 500 ∧ getField "taskId" meshyTimeout500.body = none ∧
    productsPollBranch r t =
      ⟨202, [("status", BVal.str "processing"), ("taskId", BVal.str t),
             ("traceId", traceBVal r.traceId)]⟩ := by
  refine ⟨pollLoop_no_terminal _ dT tripoTimeout500 hT 120000 0, rfl, rfl,
          pollLoop_no_terminal _ dM meshyTimeout500 hM 120000 0, rfl, rfl, ?_⟩
  unfold productsPollBranch
  rw [h2, h3]
  simp [h1, h4, h5]

/-- Witness for the amended C2 at concrete never-terminal providers and a
concrete `queued` single-poll response. -/
theorem C2_amended_timeout_behaviour_witness :
    (pollLoop (fun i => tripoPollOutcome ((fun _ => pendingTripoResp) i))
        (fun _ => 0) tripoTimeout500 0 120000).1 = tripoTimeout500 ∧
    tripoTimeout500.status = 500 ∧ getField "taskId" tripoTimeout500.body = none ∧
    (pollLoop (fun i => meshyPollOutcome ((fun _ => pendingMeshyResp) i))
        (fun _ => 0) meshyTimeout500 0 120000).1 = meshyTimeout500 ∧
    meshyTimeout500.status = 500 ∧ getField "taskId" meshyTimeout500.body = none ∧
    productsPollBranch pendingTripoResp "task3" =
      ⟨202, [("status", BVal.str "processing"), ("taskId", BVal.str "task3"),
             ("traceId", traceBVal pendingTripoResp.traceId)]⟩ :=
  C2_amended_timeout_behaviour (fun _ => pendingTripoResp) (fun _ => 0) (fun _ => rfl)
    (fun _ => pendingMeshyResp) (fun _ => 0) (fun _ => rfl)
    pendingTripoResp { status := some "queued" } "task3" rfl rfl rfl
    (by decide) (by decide)

/-- C3 counterexample: at the same model URL, the Tripo handler's success
body carries a `traceId` field (null when the provider sends no trace
header) that the Meshy handler's body does not, so the two caller-visible
success results are not identical even though both are HTTP 200 with the
same `modelUrl`. -/
theorem C3_counterexample_bodies_differ :
    tripoPollOutcome
        { data := some { status := some "success", outputModel := some "https://x/m.glb" } } =
      some (tripoSuccess200 "https://x/m.glb" none) ∧
    meshyPollOutcome { status := some "SUCCEEDED", modelUrlsGlb := some "https://x/m.glb" } =
      some (meshySuccess200 "https://x/m.glb") ∧
    (tripoSuccess200 "https://x/m.glb" none).status = 200 ∧
    (meshySuccess200 "https://x/m.glb").status = 200 ∧
    getField "modelUrl" (tripoSuccess200 "https://x/m.glb" none).body =
      some (BVal.str "https://x/m.glb") ∧
    getField "modelUrl" (meshySuccess200 "https://x/m.glb").body =
      some (BVal.str "https://x/m.glb") ∧
    tripoSuccess200 "https://x/m.glb" none ≠ meshySuccess200 "https://x/m.glb" := by
  exact ⟨rfl, rfl, rfl, rfl, rfl, rfl, by decide⟩

/-- C3 amended: on matching success responses the two handlers agree on the
status code (200) and on the `modelUrl` field (the shared URL), but the
Tripo body additionally carries a `traceId` field, absent from the Meshy
body, so the bodies are not field-identical. -/
theorem C3_amended_success_agreement
    (rT : TripoResp) (dT : TripoData) (u : String) (hu : u ≠ "")
    (hT1 : rT.jsonParses = true) (hT2 : rT.code = some 0) (hT3 : rT.data = some dT)
    (hT4 : dT.status = some "success") (hT5 : dT.outputModel = some u)
    (rM : MeshyHttpResp) (hM1 : rM.ok = true) (hM2 : rM.jsonParses = true)
    (hM3 : rM.status = some "SUCCEEDED") (hM4 : rM.modelUrlsGlb = some u) :
    tripoPollOutcome rT = some (tripoSuccess200 u rT.traceId) ∧
    meshyPollOutcome rM = some (meshySuccess200 u) ∧
    (tripoSuccess200 u rT.traceId).status = (meshySuccess200 u).status ∧
    getField "modelUrl" (tripoSuccess200 u rT.traceId).body = some (BVal.str u) ∧
    getField "modelUrl" (meshySuccess200 u).body = some (BVal.str u) ∧
    getField "traceId" (tripoSuccess200 u rT.traceId).body = some (traceBVal rT.traceId) ∧
    getField "traceId" (meshySuccess200 u).body = none := by
  refine ⟨?_, ?_, rfl, rfl, rfl, rfl, rfl⟩
  · unfold tripoPollOutcome
    rw [hT2, hT3]
    simp [hT1, hT4, hT5, hu]
  · unfold meshyPollOutcome
    simp [hM1, hM2, hM3, hM4, hu]

/-- Witness for the amended C3 at the URL of the spec's transparency test. -/
theorem C3_amended_success_agreement_witness :
    tripoPollOutcome
        { data := some { status := some "success", outputModel := some "https://x/m.glb" },
          traceId := some "tr9" } =
      some (tripoSuccess200 "https://x/m.glb" (some "tr9")) ∧
    meshyPollOutcome { status := some "SUCCEEDED", modelUrlsGlb := some "https://x/m.glb" } =
      some (meshySuccess200 "https://x/m.glb") := by
  have h := C3_amended_success_agreement
    { data := some { status := some "success", outputModel := some "https://x/m.glb" },
      traceId := some "tr9" }
    { status := some "success", outputModel := some "https://x/m.glb" }
    "https://x/m.glb" (by decide) rfl rfl rfl rfl rfl
    { status := some "SUCCEEDED", modelUrlsGlb := some "https://x/m.glb" } rfl rfl rfl rfl
  exact ⟨h.1, h.2.1⟩

/-- C4 counterexample: the single-poll `products.ts` handler, given an
in-progress `queued` poll response, does not continue polling — it performs
exactly one provider query and returns a 202 response to the caller. -/
theorem C4_counterexample_products_returns_on_queued :
    productsPOST (some "key") sampleProductsEnv { taskId := some "task9" } =
      (⟨202, [("status", BVal.str "processing"), ("taskId", BVal.str "task9"),
              ("traceId", BVal.null)]⟩,
       [OutCall.getTask "task9"]) := by
  rfl

/-- C4 amended: a poll response with a recognized terminal failure status
makes every handler return an HTTP 500 failure at once, carrying the status
(or the provider's error message) as the error detail; an in-progress
status (`queued`/`running`, `PENDING`/`IN_PROGRESS`) makes the two polling
loops continue, while the single-poll `products.ts` handler instead returns
the resumable 202 `processing` snapshot. -/
theorem C4_amended_terminal_vs_progress :
    (∀ (r : TripoResp) (d : TripoData) (s : String),
      r.jsonParses = true → r.code = some 0 → r.data = some d → d.status = some s →
      s ∈ (["failed", "cancelled", "unknown", "banned", "expired"] : List String) →
      tripoPollOutcome r = some (tripoFailed500 s r.traceId) ∧
      (tripoFailed500 s r.traceId).status = 500) ∧
    (∀ (r : TripoResp) (d : TripoData),
      r.jsonParses = true → r.code = some 0 → r.data = some d →
      (d.status = some "queued" ∨ d.status = some "running") →
      tripoPollOutcome r = none) ∧
    (∀ (r : MeshyHttpResp) (s : String),
      r.ok = true → r.jsonParses = true → r.status = some s →
      (s = "FAILED" ∨ s = "CANCELED") →
      meshyPollOutcome r =
        some ⟨500, [("error", BVal.str ("Meshy task failed: "
                      ++ jsOrStr r.taskErrorMessage s))]⟩) ∧
    (∀ (r : MeshyHttpResp),
      r.ok = true → r.jsonParses = true →
      (r.status = some "PENDING" ∨ r.status = some "IN_PROGRESS") →
      meshyPollOutcome r = none) ∧
    (∀ (r : TripoResp) (d : TripoData) (s t : String),
      r.jsonParses = true → r.code = some 0 → r.data = some d → d.status = some s →
      s ∈ (["failed", "cancelled", "unknown", "banned", "expired"] : List String) →
      productsPollBranch r t = tripoFailed500 s r.traceId) ∧
    (∀ (r : TripoResp) (d : TripoData) (t : String),
      r.jsonParses = true → r.code = some 0 → r.data = some d →
      (d.status = some "queued" ∨ d.status = some "running") →
      productsPollBranch r t =
        ⟨202, [("status", BVal.str "processing"), ("taskId", BVal.str t),
               ("traceId", traceBVal r.traceId)]⟩) := by
  refine ⟨?_, ?_, ?_, ?_, ?_, ?_⟩
  · intro r d s h1 h2 h3 h4 hs
    refine ⟨?_, rfl⟩
    unfold tripoPollOutcome
    rw [h2, h3]
    fin_cases hs <;> simp [h1, h4, isTripoFail]
  · intro r d h1 h2 h3 h4
    unfold tripoPollOutcome
    rw [h2, h3]
    rcases h4 with h4 | h4 <;> simp [h1, h4, isTripoFail]
  · intro r s h1 h2 h3 hs
    unfold meshyPollOutcome
    rcases hs with rfl | rfl <;> simp [h1, h2, h3]
  · intro r h1 h2 h3
    unfold meshyPollOutcome
    rcases h3 with h3 | h3 <;> simp [h1, h2, h3]
  · intro r d s t h1 h2 h3 h4 hs
    unfold productsPollBranch
    rw [h2, h3]
    fin_cases hs <;> simp [h1, h4, isTripoFail]
  · intro r d t h1 h2 h3 h4
    unfold productsPollBranch
    rw [h2, h3]
    rcases h4 with h4 | h4 <;> simp [h1, h4, isTripoFail]

/-- Witness for the amended C4: a Tripo `failed` poll, a Tripo `running`
poll, a Meshy `FAILED` poll with an error message, a Meshy `IN_PROGRESS`
poll, and the products handler on `expired` and `queued`. -/
theorem C4_amended_terminal_vs_progress_witness :
    tripoPollOutcome { data := some { status := some "failed" } } =
      some (tripoFailed500 "failed" none) ∧
    tripoPollOutcome { data := some { status := some "running" } } = none ∧
    meshyPollOutcome { status := some "FAILED", taskErrorMessage := some "boom" } =
      some ⟨500, [("error", BVal.str ("Meshy task failed: "
                    ++ jsOrStr (some "boom") "FAILED"))]⟩ ∧
    meshyPollOutcome { status := some "IN_PROGRESS" } = none ∧
    productsPollBranch { data := some { status := some "expired" } } "t4" =
      tripoFailed500 "expired" none ∧
    productsPollBranch { data := some { status := some "queued" }, traceId := some "tr" } "t4" =
      ⟨202, [("status", BVal.str "processing"), ("taskId", BVal.str "t4"),
             ("traceId", traceBVal (some "tr"))]⟩ := by
  refine ⟨?_, ?_, ?_, ?_, ?_, ?_⟩
  · exact (C4_amended_terminal_vs_progress.1 { data := some { status := some "failed" } }
      { status := some "failed" } "failed" rfl rfl rfl rfl (by decide)).1
  · exact C4_amended_terminal_vs_progress.2.1 { data := some { status := some "running" } }
      { status := some "running" } rfl rfl rfl (Or.inr rfl)
  · exact C4_amended_terminal_vs_progress.2.2.1
      { status := some "FAILED", taskErrorMessage := some "boom" } "FAILED" rfl rfl rfl (Or.inl rfl)
  · exact C4_amended_terminal_vs_progress.2.2.2.1 { status := some "IN_PROGRESS" }
      rfl rfl (Or.inr rfl)
  · exact C4_amended_terminal_vs_progress.2.2.2.2.1
      { data := some { status := some "expired" } } { status := some "expired" } "expired" "t4"
      rfl rfl rfl rfl (by decide)
  · exact C4_amended_terminal_vs_progress.2.2.2.2.2
      { data := some { status := some "queued" }, traceId := some "tr" }
      { status := some "queued" } "t4" rfl rfl rfl (Or.inl rfl)

/-- C7 counterexample: the `products.ts` handler does not reject a payload
whose declared type is not an image.  A `data:text/plain` payload passes
its validation, reaches the network (the multipart upload runs, then task
creation), and the request is answered 202 — not a 400 validation error. -/
theorem C7_counterexample_text_plain_reaches_network :
    (productsPOST (some "key") sampleProductsEnv
        { image_url := some "data:text/plain;base64,AAAA" }).2 =
      [OutCall.upload,
       OutCall.createTask (CreateBody.fileToken (some "plain") "tok") none] ∧
    (productsPOST (some "key") sampleProductsEnv
        { image_url := some "data:text/plain;base64,AAAA" }).1.status = 202 := by
  exact ⟨rfl, rfl⟩

/-- C7 amended: the two `meshy-3d` handlers return the 400 validation error
before any outbound call for a missing payload, an empty payload, or any
payload not starting with `data:image/` (non-image declared types
included); the `products.ts` handler returns its 400 before any outbound
call only for a missing or empty `image_url`, and forwards data URLs of any
declared MIME type to the provider. -/
theorem C7_amended_validation_before_network (k : Option String) (hk : missingKey k = false)
    (envT : TripoLoopEnv) (envM : MeshyLoopEnv) (envP : ProductsEnv)
    (u : String) (hu : strStartsWith u "data:image/" = false)
    (rq : ProductsReq) (hrq1 : rq.taskId = none ∨ rq.taskId = some "")
    (hrq2 : rq.image_url = none ∨ rq.image_url = some "") :
    meshy3dTripoPOST k envT { image_url := none } = (invalid400, []) ∧
    meshy3dTripoPOST k envT { image_url := some u } = (invalid400, []) ∧
    meshy3dMeshyPOST k envM { image_url := none } = (invalid400, []) ∧
    meshy3dMeshyPOST k envM { image_url := some u } = (invalid400, []) ∧
    productsPOST k envP rq = (prodMissing400, []) ∧
    invalid400.status = 400 ∧ prodMissing400.status = 400 := by
  refine ⟨?_, ?_, ?_, ?_, ?_, rfl, rfl⟩
  · unfold meshy3dTripoPOST
    simp [hk]
  · unfold meshy3dTripoPOST
    simp [hk, hu]
  · unfold meshy3dMeshyPOST
    simp [hk]
  · unfold meshy3dMeshyPOST
    simp [hk, hu]
  · unfold productsPOST
    have ht : truthyStr rq.taskId = false := by
      rcases hrq1 with h | h <;> rw [h] <;> rfl
    rcases hrq2 with h2 | h2 <;> rw [h2] <;> simp [hk, ht]

/-- Witness for the amended C7: an empty payload and a `text/plain` payload
against the `meshy-3d` handlers, and a products request with an empty
`image_url`. -/
theorem C7_amended_validation_before_network_witness :
    meshy3dTripoPOST (some "key") samplePendingTripoLoopEnv { image_url := none }
      = (invalid400, []) ∧
    meshy3dTripoPOST (some "key") samplePendingTripoLoopEnv
        { image_url := some "data:text/plain;base64,AAAA" } = (invalid400, []) ∧
    meshy3dMeshyPOST (some "key") samplePendingMeshyLoopEnv { image_url := none }
      = (invalid400, []) ∧
    meshy3dMeshyPOST (some "key") samplePendingMeshyLoopEnv
        { image_url := some "data:text/plain;base64,AAAA" } = (invalid400, []) ∧
    productsPOST (some "key") sampleProductsEnv { image_url := some "" }
      = (prodMissing400, []) := by
  have h := C7_amended_validation_before_network (some "key") rfl
    samplePendingTripoLoopEnv samplePendingMeshyLoopEnv sampleProductsEnv
    "data:text/plain;base64,AAAA" (by decide)
    { image_url := some "" } (Or.inl rfl) (Or.inr rfl)
  exact ⟨h.1, h.2.1, h.2.2.1, h.2.2.2.1, h.2.2.2.2.1⟩
